import Mathlib

/-!
Shallow embedding of the data-reconciliation core of
`netgear-mr1100-monitor` (`router-stats.js`), together with theorems
settling the specification claims about it.

Conventions of the embedding:
* JavaScript numbers that hold parsed byte counters are modelled as `Int`;
  `parseInt(x)` is modelled as `Option Int` (`none` = `NaN`, i.e. a missing
  or unparsable field), so `parseInt(x) || 0` becomes `parseIntOr0`.
* Speeds (results of float division) are modelled exactly as `ℚ`.
* The SQLite `timeseries_data` table is modelled as a list of
  `TimeSeriesRecord`, kept in ascending timestamp order (the table is
  append-only with monotone timestamps).
-/

/-- `POLL_INTERVAL = 5000` (router-stats.js line 9), in milliseconds. -/
def POLL_INTERVAL : Int := 5000

/-- Model of `parseInt(x) || 0`: `NaN` (unparsable/missing, `none`) and `0`
both coerce to `0`; any other parsed integer passes through. -/
def parseIntOr0 (o : Option Int) : Int :=
  match o with
  | none => 0
  | some v => v

/-- JS truthiness of an optional string: present and non-empty. -/
def truthyStr (o : Option String) : Bool :=
  match o with
  | some s => s ≠ ""
  | none => false

/-- Model of `x || null` on an optional JS number (`0` is falsy). -/
def orNullInt (o : Option Int) : Option Int :=
  match o with
  | some v => if v = 0 then none else some v
  | none => none

/-- `wifi.offload.dataTransferred` sub-object: raw tx/rx counters
(offload sources use the reversed convention). -/
structure DataTransferred where
  tx : Option Int
  rx : Option Int
deriving DecidableEq, Repr

/-- `data.wifi.offload` sub-object, as read by `displayStats`. -/
structure WifiOffload where
  dataTransferred : Option DataTransferred
  enabled : Bool
  status : String
  connectionSsid : Option String
  rssi : Option Int
  bars : Option Int
deriving DecidableEq, Repr

/-- `data.ethernet.offload` sub-object, as read by `displayStats`. -/
structure EthOffload where
  tx : Option Int
  rx : Option Int
  enabled : Bool
  isOn : Bool
  ipv4Addr : Option String
deriving DecidableEq, Repr

/-- The fields of `data.wwan` that the aggregation logic reads. -/
structure Wwan where
  dataTransferredRx : Option Int
  dataTransferredTx : Option Int
  sessDuration : Int
  dataUsageTransferred : Option Int
  dataUsageTransferredRoaming : Option Int
  rsrp : Option Int
  rsrq : Option Int
  sinr : Option Int
deriving DecidableEq, Repr

/-- One raw router snapshot, restricted to the fields the normalizer reads.
`wifiOffload` models `data.wifi && data.wifi.offload` (absent when either
is missing); `ethOffload` models `data.ethernet && data.ethernet.offload`. -/
structure RawSnapshot where
  wwan : Wwan
  wifiOffload : Option WifiOffload
  ethOffload : Option EthOffload
deriving DecidableEq, Repr

/-- Aggregate session download (router-stats.js lines 821-836):
cellular RX plus, in reversed convention, each present offload source's TX. -/
def totalDownload (d : RawSnapshot) : Int :=
  parseIntOr0 d.wwan.dataTransferredRx
  + (match d.wifiOffload with
     | some w =>
       match w.dataTransferred with
       | some dt => parseIntOr0 dt.tx
       | none => 0
     | none => 0)
  + (match d.ethOffload with
     | some e => parseIntOr0 e.tx
     | none => 0)

/-- Aggregate session upload (router-stats.js lines 821-836):
cellular TX plus, in reversed convention, each present offload source's RX. -/
def totalUpload (d : RawSnapshot) : Int :=
  parseIntOr0 d.wwan.dataTransferredTx
  + (match d.wifiOffload with
     | some w =>
       match w.dataTransferred with
       | some dt => parseIntOr0 dt.rx
       | none => 0
     | none => 0)
  + (match d.ethOffload with
     | some e => parseIntOr0 e.rx
     | none => 0)

/-- `totalLifetimeBytes` (router-stats.js lines 841-843). -/
def totalLifetimeBytes (d : RawSnapshot) : Int :=
  parseIntOr0 d.wwan.dataUsageTransferred
  + parseIntOr0 d.wwan.dataUsageTransferredRoaming

/-- Per-source breakdown (router-stats.js line 904): cellular download. -/
def cellularDownload (d : RawSnapshot) : Int :=
  parseIntOr0 d.wwan.dataTransferredRx

/-- Per-source breakdown (router-stats.js line 905): cellular upload. -/
def cellularUpload (d : RawSnapshot) : Int :=
  parseIntOr0 d.wwan.dataTransferredTx

/-- Per-source breakdown (router-stats.js line 907):
WiFi-offload download = raw `tx` when the sub-objects are present, else 0. -/
def wifiOffloadDownload (d : RawSnapshot) : Int :=
  match d.wifiOffload with
  | some w =>
    match w.dataTransferred with
    | some dt => parseIntOr0 dt.tx
    | none => 0
  | none => 0

/-- Per-source breakdown (router-stats.js line 908):
WiFi-offload upload = raw `rx` when the sub-objects are present, else 0. -/
def wifiOffloadUpload (d : RawSnapshot) : Int :=
  match d.wifiOffload with
  | some w =>
    match w.dataTransferred with
    | some dt => parseIntOr0 dt.rx
    | none => 0
  | none => 0

/-- Activity predicate for WiFi offload (router-stats.js line 909):
`wifiOffload && wifiOffload.enabled && wifiOffload.status === 'On'
&& wifiOffload.connectionSsid`. -/
def wifiOffloadActive (d : RawSnapshot) : Bool :=
  match d.wifiOffload with
  | some w => w.enabled && (w.status == "On") && truthyStr w.connectionSsid
  | none => false

/-- Per-source breakdown (router-stats.js line 914): Ethernet-offload
download = raw `tx` when the sub-object is present, else 0. -/
def ethernetOffloadDownload (d : RawSnapshot) : Int :=
  match d.ethOffload with
  | some e => parseIntOr0 e.tx
  | none => 0

/-- Per-source breakdown (router-stats.js line 915): Ethernet-offload
upload = raw `rx` when the sub-object is present, else 0. -/
def ethernetOffloadUpload (d : RawSnapshot) : Int :=
  match d.ethOffload with
  | some e => parseIntOr0 e.rx
  | none => 0

/-- Activity predicate for Ethernet offload (router-stats.js line 916):
`ethOffload && ethOffload.enabled && ethOffload.on && ethOffload.ipv4Addr
&& ethOffload.ipv4Addr !== '0.0.0.0'`. -/
def ethernetOffloadActive (d : RawSnapshot) : Bool :=
  match d.ethOffload with
  | some e =>
    e.enabled && e.isOn && truthyStr e.ipv4Addr
      && (match e.ipv4Addr with
          | some s => s ≠ "0.0.0.0"
          | none => false)
  | none => false

/-- `calculateBandwidth(currentBytes, previousBytes, timeInterval)`
(router-stats.js lines 644-649): returns 0 when `previousBytes` is falsy
(i.e. 0), otherwise `max(0, bytesDiff / timeInterval * 1000)` with
`timeInterval` in milliseconds. -/
def calculateBandwidth (currentBytes previousBytes : Int) (timeInterval : ℚ) : ℚ :=
  if previousBytes = 0 then 0
  else max 0 (((currentBytes - previousBytes : Int) : ℚ) / timeInterval * 1000)

/-- One row of the `timeseries_data` table (schema at router-stats.js
lines 114-136). Columns with a `NOT NULL` constraint are `Int`; the rest
are `Option`. -/
structure TimeSeriesRecord where
  timestamp : Int
  total_rx_bytes : Int
  total_tx_bytes : Int
  session_duration : Int
  lifetime_bytes : Option Int
  signal_rsrp : Option Int
  signal_rsrq : Option Int
  signal_sinr : Option Int
  cellular_download : Option Int
  cellular_upload : Option Int
  wifi_offload_download : Option Int
  wifi_offload_upload : Option Int
  wifi_offload_active : Option Int
  wifi_offload_ssid : Option String
  wifi_offload_rssi : Option Int
  wifi_offload_bars : Option Int
  ethernet_offload_download : Option Int
  ethernet_offload_upload : Option Int
  ethernet_offload_active : Option Int
deriving DecidableEq, Repr

/-- `saveTimeseriesData` (router-stats.js lines 288-304): the row the
INSERT writes, with the function's own parameter names and order
(`totalRx` feeds column `total_rx_bytes`, `totalTx` feeds
`total_tx_bytes`; the active flags are stored as 1/0). -/
def saveTimeseriesData (timestamp totalRx totalTx sessionDuration lifetimeBytes : Int)
    (signalRsrp signalRsrq signalSinr : Option Int)
    (cellularDownloadV cellularUploadV wifiOffloadDownloadV wifiOffloadUploadV : Int)
    (wifiOffloadActiveV : Bool) (wifiOffloadSsidV : Option String)
    (wifiOffloadRssiV wifiOffloadBarsV : Option Int)
    (ethernetOffloadDownloadV ethernetOffloadUploadV : Int)
    (ethernetOffloadActiveV : Bool) : TimeSeriesRecord :=
  { timestamp := timestamp
    total_rx_bytes := totalRx
    total_tx_bytes := totalTx
    session_duration := sessionDuration
    lifetime_bytes := some lifetimeBytes
    signal_rsrp := signalRsrp
    signal_rsrq := signalRsrq
    signal_sinr := signalSinr
    cellular_download := some cellularDownloadV
    cellular_upload := some cellularUploadV
    wifi_offload_download := some wifiOffloadDownloadV
    wifi_offload_upload := some wifiOffloadUploadV
    wifi_offload_active := some (if wifiOffloadActiveV then 1 else 0)
    wifi_offload_ssid := wifiOffloadSsidV
    wifi_offload_rssi := wifiOffloadRssiV
    wifi_offload_bars := wifiOffloadBarsV
    ethernet_offload_download := some ethernetOffloadDownloadV
    ethernet_offload_upload := some ethernetOffloadUploadV
    ethernet_offload_active := some (if ethernetOffloadActiveV then 1 else 0) }

/-- The record `displayStats` persists for a poll (router-stats.js lines
918-938), with the call site's actual argument order: the second argument
is `totalUpload` and the third is `totalDownload`. -/
def savedRecord (ts : Int) (d : RawSnapshot) : TimeSeriesRecord :=
  saveTimeseriesData ts (totalUpload d) (totalDownload d) d.wwan.sessDuration
    (totalLifetimeBytes d) d.wwan.rsrp d.wwan.rsrq d.wwan.sinr
    (cellularDownload d) (cellularUpload d)
    (wifiOffloadDownload d) (wifiOffloadUpload d)
    (wifiOffloadActive d)
    (if wifiOffloadActive d then
       match d.wifiOffload with
       | some w => w.connectionSsid
       | none => none
     else none)
    (if wifiOffloadActive d then
       match d.wifiOffload with
       | some w => orNullInt w.rssi
       | none => none
     else none)
    (if wifiOffloadActive d then
       match d.wifiOffload with
       | some w => orNullInt w.bars
       | none => none
     else none)
    (ethernetOffloadDownload d) (ethernetOffloadUpload d)
    (ethernetOffloadActive d)

/-- The last row with `lifetime_bytes IS NOT NULL`, as fetched by
`handleDataGap`'s SELECT (router-stats.js lines 311-317). -/
structure LastEntry where
  timestamp : Int
  lifetime_bytes : Int
deriving DecidableEq, Repr

/-- `handleDataGap(currentTimestamp, lifetimeBytes)` (router-stats.js lines
307-357), returning the list of synthetic records it inserts (empty when
no interpolation occurs). `lastEntry` is the result of its SELECT
(`none` when the table has no row with a lifetime value). -/
def handleDataGap (lastEntry : Option LastEntry) (currentTimestamp lifetimeBytes : Int) :
    List TimeSeriesRecord :=
  match lastEntry with
  | none => []
  | some lastE =>
    let timeSinceLastPoll := currentTimestamp - lastE.timestamp
    let gapThreshold := POLL_INTERVAL * 3
    if timeSinceLastPoll > gapThreshold ∧ lifetimeBytes > lastE.lifetime_bytes then
      let lifetimeDelta := lifetimeBytes - lastE.lifetime_bytes
      -- Math.floor(timeSinceLastPoll / POLL_INTERVAL), exactly
      let numIntervals : Int := Int.fdiv timeSinceLastPoll POLL_INTERVAL
      if numIntervals > 0 ∧ numIntervals < 24 * 60 * 60 * 1000 / POLL_INTERVAL
          ∧ lifetimeDelta > 0 then
        -- the loop runs i = 1, ..., numIntervals - 1; each interpolated
        -- lifetime Math.floor(lastE.lifetime_bytes + (lifetimeDelta / numIntervals) * i)
        -- is computed exactly: for an integer base and numIntervals > 0 it is
        -- the base plus the floored division of lifetimeDelta * i by numIntervals
        (List.range (numIntervals - 1).toNat).map (fun j =>
          let i : Int := (j : Int) + 1
          { timestamp := lastE.timestamp + i * POLL_INTERVAL
            total_rx_bytes := 0
            total_tx_bytes := 0
            session_duration := 0
            lifetime_bytes := some (lastE.lifetime_bytes + Int.fdiv (lifetimeDelta * i) numIntervals)
            signal_rsrp := none
            signal_rsrq := none
            signal_sinr := none
            cellular_download := none
            cellular_upload := none
            wifi_offload_download := none
            wifi_offload_upload := none
            wifi_offload_active := none
            wifi_offload_ssid := none
            wifi_offload_rssi := none
            wifi_offload_bars := none
            ethernet_offload_download := none
            ethernet_offload_upload := none
            ethernet_offload_active := none })
      else []
    else []

/-- SQL `MIN` aggregate over a selected column: `NULL` on an empty
selection, else the least value. -/
def sqlMin : List Int → Option Int
  | [] => none
  | x :: xs =>
    match sqlMin xs with
    | none => some x
    | some m => some (min x m)

/-- SQL `MAX` aggregate over a selected column: `NULL` on an empty
selection, else the greatest value. -/
def sqlMax : List Int → Option Int
  | [] => none
  | x :: xs =>
    match sqlMax xs with
    | none => some x
    | some m => some (max x m)

/-- The rows selected by one window of `calculateUsageOverTime`
(`WHERE timestamp >= cutoffTime`, router-stats.js lines 380-386). -/
def windowRecords (tbl : List TimeSeriesRecord) (cutoffTime : Int) : List TimeSeriesRecord :=
  tbl.filter (fun r => cutoffTime ≤ r.timestamp)

/-- The column `total_rx_bytes + total_tx_bytes` of the rows in a window. -/
def windowSums (tbl : List TimeSeriesRecord) (cutoffTime : Int) : List Int :=
  (windowRecords tbl cutoffTime).map (fun r => r.total_rx_bytes + r.total_tx_bytes)

/-- One iteration of the loop in `calculateUsageOverTime` (router-stats.js
lines 377-395): `end_bytes - start_bytes` when both SQL aggregates are
non-NULL, else `null`. -/
def usageOverWindow (tbl : List TimeSeriesRecord) (cutoffTime : Int) : Option Int :=
  match sqlMin (windowSums tbl cutoffTime), sqlMax (windowSums tbl cutoffTime) with
  | some startBytes, some endBytes => some (endBytes - startBytes)
  | _, _ => none

/-- One bandwidth sample recomputed from two adjacent rows, paired with the
timestamp pushed for it: `(downloadSpeed, uploadSpeed, timestamp)`. -/
def speedsFromRows : List TimeSeriesRecord → List (ℚ × ℚ × Int)
  | [] => []
  | [_] => []
  | previous :: current :: rest =>
    let tail := speedsFromRows (current :: rest)
    let timeDiffSec : ℚ := ((current.timestamp - previous.timestamp : Int) : ℚ) / 1000
    let rxDiff := current.total_rx_bytes - previous.total_rx_bytes
    let txDiff := current.total_tx_bytes - previous.total_tx_bytes
    if rxDiff ≥ 0 ∧ txDiff ≥ 0 ∧ timeDiffSec > 0 then
      ((rxDiff : ℚ) / timeDiffSec, (txDiff : ℚ) / timeDiffSec, current.timestamp) :: tail
    else
      tail

/-- `ORDER BY timestamp DESC LIMIT (limit+1)` followed by `rows.reverse()`,
for a table held in ascending timestamp order: the last `limit + 1` rows,
oldest first. -/
def lastRowsOldestFirst (tbl : List TimeSeriesRecord) (limit : Nat) : List TimeSeriesRecord :=
  (tbl.reverse.take (limit + 1)).reverse

/-- `calculateSpeedsFromTimeseries(limit)` (router-stats.js lines 400-452):
download speeds (from the `total_rx_bytes` column), upload speeds (from
`total_tx_bytes`) and timestamps, skipping negative-delta and
non-positive-time intervals. -/
def calculateSpeedsFromTimeseries (tbl : List TimeSeriesRecord) (limit : Nat) :
    List ℚ × List ℚ × List Int :=
  let rows := lastRowsOldestFirst tbl limit
  if rows.length < 2 then ([], [], [])
  else
    ((speedsFromRows rows).map (fun s => s.1),
     (speedsFromRows rows).map (fun s => s.2.1),
     (speedsFromRows rows).map (fun s => s.2.2))

/-- The in-memory ring buffer `bandwidthHistory` (router-stats.js lines
85-89), minus the constant `maxSamples` field. -/
structure BandwidthHistory where
  download : List ℚ
  upload : List ℚ
deriving DecidableEq, Repr

/-- `bandwidthHistory.maxSamples = 66` (router-stats.js line 88). -/
def maxSamples : Nat := 66

/-- The history update of a poll cycle (router-stats.js lines 970-975):
push both speeds, then shift both lists once when the download list
exceeds `maxSamples`. -/
def pushSample (h : BandwidthHistory) (downloadSpeed uploadSpeed : ℚ) : BandwidthHistory :=
  let pushed : BandwidthHistory :=
    { download := h.download ++ [downloadSpeed], upload := h.upload ++ [uploadSpeed] }
  if pushed.download.length > maxSamples then
    { download := pushed.download.tail, upload := pushed.upload.tail }
  else pushed

/-- The live bandwidth computation of a poll cycle (router-stats.js lines
941-964): both aggregates recomputed from `previousStats` exactly as for
the current snapshot, then `calculateBandwidth` with
`timeDiff = POLL_INTERVAL`. Returns `(downloadSpeed, uploadSpeed)`. -/
def livePollSpeeds (prev curr : RawSnapshot) : ℚ × ℚ :=
  (calculateBandwidth (totalDownload curr) (totalDownload prev) (POLL_INTERVAL : ℚ),
   calculateBandwidth (totalUpload curr) (totalUpload prev) (POLL_INTERVAL : ℚ))

/-- `saveBandwidthData(downloadSpeed, uploadSpeed)` (router-stats.js lines
151-156): unconditionally appends one `(timestamp, download_speed,
upload_speed)` row to the `bandwidth_history` table; `timestamp` is
`Date.now()` at the call. -/
def saveBandwidthData (tblRows : List (Int × ℚ × ℚ)) (timestamp : Int)
    (downloadSpeed uploadSpeed : ℚ) : List (Int × ℚ × ℚ) :=
  tblRows ++ [(timestamp, downloadSpeed, uploadSpeed)]

/-- Sum of consecutive deltas of a list of counter values. -/
def sumConsecDeltas : List Int → Int
  | x :: y :: rest => (y - x) + sumConsecDeltas (y :: rest)
  | _ => 0

/-- Executable check that a list of counter values is strictly increasing. -/
def isStrictlyIncreasing : List Int → Bool
  | x :: y :: rest => x < y && isStrictlyIncreasing (y :: rest)
  | _ => true

/-- The raw snapshot of the spec's convention-conversion example:
cellular `rx=100, tx=50`, WiFi offload `tx=30, rx=10`, no Ethernet. -/
def specConventionRaw : RawSnapshot :=
  { wwan := { dataTransferredRx := some 100, dataTransferredTx := some 50,
              sessDuration := 0, dataUsageTransferred := none,
              dataUsageTransferredRoaming := none,
              rsrp := none, rsrq := none, sinr := none },
    wifiOffload := some { dataTransferred := some { tx := some 30, rx := some 10 },
                          enabled := true, status := "On",
                          connectionSsid := some "net", rssi := none, bars := none },
    ethOffload := none }

/-- A cellular-only snapshot: rx=1000, tx=200 (poll one of the C1 scenario). -/
def pollOne : RawSnapshot :=
  { wwan := { dataTransferredRx := some 1000, dataTransferredTx := some 200,
              sessDuration := 10, dataUsageTransferred := some 5000,
              dataUsageTransferredRoaming := none,
              rsrp := some (-90), rsrq := some (-10), sinr := some 5 },
    wifiOffload := none, ethOffload := none }

/-- A cellular-only snapshot: rx=1500, tx=300 (poll two of the C1 scenario). -/
def pollTwo : RawSnapshot :=
  { wwan := { dataTransferredRx := some 1500, dataTransferredTx := some 300,
              sessDuration := 15, dataUsageTransferred := some 5600,
              dataUsageTransferredRoaming := none,
              rsrp := some (-90), rsrq := some (-10), sinr := some 5 },
    wifiOffload := none, ethOffload := none }

/-- A snapshot whose cellular download counter parses to a negative
integer: `parseInt` passes negative values through unchanged. -/
def negativeFieldRaw : RawSnapshot :=
  { wwan := { dataTransferredRx := some (-5), dataTransferredTx := none,
              sessDuration := 0, dataUsageTransferred := none,
              dataUsageTransferredRoaming := none,
              rsrp := none, rsrq := none, sinr := none },
    wifiOffload := none, ethOffload := none }

/-- A snapshot whose download counter is lower than `pollOne`'s (counter
reset on that direction) while the upload counter still grew:
rx=500, tx=300. -/
def resetPoll : RawSnapshot :=
  { wwan := { dataTransferredRx := some 500, dataTransferredTx := some 300,
              sessDuration := 1, dataUsageTransferred := some 5000,
              dataUsageTransferredRoaming := none,
              rsrp := some (-90), rsrq := some (-10), sinr := some 5 },
    wifiOffload := none, ethOffload := none }

/-- A single persisted row, inside any window with cutoff ≤ 100. -/
def singleWindowRec : TimeSeriesRecord :=
  { timestamp := 100, total_rx_bytes := 7, total_tx_bytes := 3, session_duration := 1,
    lifetime_bytes := some 10, signal_rsrp := none, signal_rsrq := none, signal_sinr := none,
    cellular_download := none, cellular_upload := none,
    wifi_offload_download := none, wifi_offload_upload := none, wifi_offload_active := none,
    wifi_offload_ssid := none, wifi_offload_rssi := none, wifi_offload_bars := none,
    ethernet_offload_download := none, ethernet_offload_upload := none,
    ethernet_offload_active := none }

/-- A row with zero session counters, shaped like a gap-interpolated
synthetic record. -/
def zeroCounterRec : TimeSeriesRecord :=
  { timestamp := 10, total_rx_bytes := 0, total_tx_bytes := 0, session_duration := 0,
    lifetime_bytes := some 1100, signal_rsrp := none, signal_rsrq := none, signal_sinr := none,
    cellular_download := none, cellular_upload := none,
    wifi_offload_download := none, wifi_offload_upload := none, wifi_offload_active := none,
    wifi_offload_ssid := none, wifi_offload_rssi := none, wifi_offload_bars := none,
    ethernet_offload_download := none, ethernet_offload_upload := none,
    ethernet_offload_active := none }

/-- A two-row table containing a zero-session-counter record and a real one. -/
def mixedWindowTbl : List TimeSeriesRecord :=
  [zeroCounterRec, singleWindowRec]

/-- Every counter field the normalizer reads parses to a non-negative
value (missing/unparsable fields coerce to 0 and count as non-negative). -/
def nonNegCounterFields (d : RawSnapshot) : Bool :=
  decide (0 ≤ parseIntOr0 d.wwan.dataTransferredRx)
  && decide (0 ≤ parseIntOr0 d.wwan.dataTransferredTx)
  && (match d.wifiOffload with
      | some w =>
        match w.dataTransferred with
        | some dt => decide (0 ≤ parseIntOr0 dt.tx) && decide (0 ≤ parseIntOr0 dt.rx)
        | none => true
      | none => true)
  && (match d.ethOffload with
      | some e => decide (0 ≤ parseIntOr0 e.tx) && decide (0 ≤ parseIntOr0 e.rx)
      | none => true)

/-- `sqlMin` is `NULL` exactly on an empty selection. -/
theorem sqlMin_eq_none_iff (l : List Int) : sqlMin l = none ↔ l = [] := by
  cases l with
  | nil => simp [sqlMin]
  | cons x xs =>
    simp only [sqlMin]
    cases sqlMin xs <;> simp

/-- `sqlMax` is `NULL` exactly on an empty selection. -/
theorem sqlMax_eq_none_iff (l : List Int) : sqlMax l = none ↔ l = [] := by
  cases l with
  | nil => simp [sqlMax]
  | cons x xs =>
    simp only [sqlMax]
    cases sqlMax xs <;> simp

/-- `sqlMin` bounds every selected value from below. -/
theorem sqlMin_le_of_mem : ∀ (l : List Int) (m x : Int), sqlMin l = some m → x ∈ l → m ≤ x := by
  intro l
  induction l with
  | nil => intro m x hm hx; simp at hx
  | cons y ys ih =>
    intro m x hm hx
    simp only [sqlMin] at hm
    cases hys : sqlMin ys with
    | none =>
      rw [hys] at hm
      have : ys = [] := (sqlMin_eq_none_iff ys).mp hys
      subst this
      simp at hx
      subst hx
      have : m = x := by simpa using hm.symm
      exact le_of_eq this
    | some m' =>
      rw [hys] at hm
      have hm' : m = min y m' := by simpa using hm.symm
      subst hm'
      rcases List.mem_cons.mp hx with h | h
      · subst h; exact min_le_left _ _
      · exact le_trans (min_le_right _ _) (ih m' x hys h)

/-- `sqlMin` returns one of the selected values. -/
theorem sqlMin_mem : ∀ (l : List Int) (m : Int), sqlMin l = some m → m ∈ l := by
  intro l
  induction l with
  | nil => intro m hm; simp [sqlMin] at hm
  | cons y ys ih =>
    intro m hm
    simp only [sqlMin] at hm
    cases hys : sqlMin ys with
    | none =>
      rw [hys] at hm
      simp at hm
      simp [hm]
    | some m' =>
      rw [hys] at hm
      have hm' : m = min y m' := by simpa using hm.symm
      subst hm'
      rcases le_total y m' with h | h
      · simp [min_eq_left h]
      · have := ih m' hys
        simp [min_eq_right h, this]

/-- A selection containing 0 among non-negative values has `MIN = 0`. -/
theorem sqlMin_eq_zero (l : List Int) (h0 : (0 : Int) ∈ l) (hall : ∀ x ∈ l, 0 ≤ x) :
    sqlMin l = some 0 := by
  cases hm : sqlMin l with
  | none =>
    have : l = [] := (sqlMin_eq_none_iff l).mp hm
    subst this
    simp at h0
  | some m =>
    have h1 : m ≤ 0 := sqlMin_le_of_mem l m 0 hm h0
    have h2 : 0 ≤ m := hall m (sqlMin_mem l m hm)
    have : m = 0 := le_antisymm h1 h2
    rw [this]

/-- `calculateBandwidth` never returns a negative speed. -/
theorem calculateBandwidth_nonneg (c p : Int) (t : ℚ) : 0 ≤ calculateBandwidth c p t := by
  unfold calculateBandwidth
  split
  · exact le_refl 0
  · exact le_max_left 0 _

/-- Every sample produced by `speedsFromRows` has non-negative speeds. -/
theorem speedsFromRows_nonneg :
    ∀ (l : List TimeSeriesRecord), ∀ s ∈ speedsFromRows l, 0 ≤ s.1 ∧ 0 ≤ s.2.1 := by
  intro l
  induction l with
  | nil => intro s hs; simp [speedsFromRows] at hs
  | cons p rest ih =>
    cases rest with
    | nil => intro s hs; simp [speedsFromRows] at hs
    | cons c rest' =>
      intro s hs
      rw [speedsFromRows] at hs
      split at hs
      · next hcond =>
        rcases List.mem_cons.mp hs with h | h
        · subst h
          obtain ⟨hrx, htx, htd⟩ := hcond
          constructor
          · exact div_nonneg (by exact_mod_cast hrx) (le_of_lt htd)
          · exact div_nonneg (by exact_mod_cast htx) (le_of_lt htd)
        · exact ih s h
      · exact ih s hs


/-- Claim C2 (confirmed): normalization maps cellular rx to download and tx
to upload, and each offload source's tx to download and rx to upload
(reversed); the aggregates are the sums of the per-source standard-convention
contributions, and on the spec's example snapshot (cellular rx=100 tx=50,
WiFi offload tx=30 rx=10) it yields cellular download=100, upload=50,
WiFi-offload download=30, upload=10, aggregate download=130 and upload=60. -/
theorem convention_conversion :
    (∀ d : RawSnapshot,
        totalDownload d
          = cellularDownload d + wifiOffloadDownload d + ethernetOffloadDownload d ∧
        totalUpload d
          = cellularUpload d + wifiOffloadUpload d + ethernetOffloadUpload d) ∧
    cellularDownload specConventionRaw = 100 ∧ cellularUpload specConventionRaw = 50 ∧
    wifiOffloadDownload specConventionRaw = 30 ∧ wifiOffloadUpload specConventionRaw = 10 ∧
    totalDownload specConventionRaw = 130 ∧ totalUpload specConventionRaw = 60 := by
  refine ⟨fun d => ⟨rfl, rfl⟩, ?_, ?_, ?_, ?_, ?_, ?_⟩ <;> decide

/-- Claim C10 (confirmed): `calculateBandwidth` returns 0 whenever the
previous counter value is 0 (`!previousBytes` treats 0 like absent data),
for every current value and time interval — including a strictly positive
current counter and positive interval. -/
theorem bandwidth_zero_previous_counter :
    (∀ (currentBytes : Int) (t : ℚ), calculateBandwidth currentBytes 0 t = 0) ∧
    calculateBandwidth 999999 0 (POLL_INTERVAL : ℚ) = 0 := by
  constructor
  · intro c t
    simp [calculateBandwidth]
  · simp [calculateBandwidth]

/-- Claim C3 (refuted as stated): with `lifetimeBytes=1000` at `t=0` and a
new record `lifetimeBytes=2000` at `t = 10 * POLL_INTERVAL = 50000`,
`handleDataGap` does not insert 8 synthetic records. -/
theorem gap_interpolation_count_counterexample :
    ¬ ((handleDataGap (some ⟨0, 1000⟩) 50000 2000).length = 8) := by decide

/-- Claim C3 (amended): in that scenario `handleDataGap` inserts exactly
`numIntervals - 1 = 9` synthetic records; their lifetime values are
1100, …, 1900, strictly increasing, and the consecutive deltas from the
last real value 1000 through the synthetic records to the new real value
2000 sum to exactly 1000. -/
theorem gap_interpolation_nine_records :
    (handleDataGap (some ⟨0, 1000⟩) 50000 2000).length = 9 ∧
    (handleDataGap (some ⟨0, 1000⟩) 50000 2000).filterMap (fun r => r.lifetime_bytes)
      = [1100, 1200, 1300, 1400, 1500, 1600, 1700, 1800, 1900] ∧
    isStrictlyIncreasing
      ((1000 : Int) :: ((handleDataGap (some ⟨0, 1000⟩) 50000 2000).filterMap
        (fun r => r.lifetime_bytes) ++ [2000])) = true ∧
    sumConsecDeltas
      ((1000 : Int) :: ((handleDataGap (some ⟨0, 1000⟩) 50000 2000).filterMap
        (fun r => r.lifetime_bytes) ++ [2000])) = 1000 := by
  refine ⟨?_, ?_, ?_, ?_⟩ <;> decide

/-- Claim C1 (code bug): bandwidth samples are NOT recomputable from the
persisted history — the call site of `saveTimeseriesData` passes
`totalUpload` into the `totalRx` parameter and `totalDownload` into
`totalTx`, so `total_rx_bytes` stores the upload aggregate and
`total_tx_bytes` the download aggregate, contradicting the project's own
documentation (CONTEXT.md: "total_rx_bytes=Download, total_tx_bytes=Upload")
and the comments in `calculateSpeedsFromTimeseries`. Concretely: for two
cellular-only snapshots (rx 1000→1500, tx 200→300) persisted 5000 ms apart,
the live poll computes (downloadBps, uploadBps) = (100, 20), while the
recomputation from the persisted rows yields download [20] and upload
[100] — the two directions are swapped. -/
theorem persisted_speed_swap :
    livePollSpeeds pollOne pollTwo = (100, 20) ∧
    (savedRecord 0 pollOne).total_rx_bytes = totalUpload pollOne ∧
    (savedRecord 0 pollOne).total_tx_bytes = totalDownload pollOne ∧
    (calculateSpeedsFromTimeseries [savedRecord 0 pollOne, savedRecord 5000 pollTwo] 20).1
      = [20] ∧
    (calculateSpeedsFromTimeseries [savedRecord 0 pollOne, savedRecord 5000 pollTwo] 20).2.1
      = [100] := by
  refine ⟨?_, rfl, rfl, ?_, ?_⟩
  · norm_num [livePollSpeeds, calculateBandwidth, totalDownload, totalUpload,
      pollOne, pollTwo, parseIntOr0, POLL_INTERVAL, Prod.ext_iff]
  · norm_num [calculateSpeedsFromTimeseries, lastRowsOldestFirst, speedsFromRows,
      savedRecord, saveTimeseriesData, totalDownload, totalUpload, pollOne, pollTwo,
      parseIntOr0]
  · norm_num [calculateSpeedsFromTimeseries, lastRowsOldestFirst, speedsFromRows,
      savedRecord, saveTimeseriesData, totalDownload, totalUpload, pollOne, pollTwo,
      parseIntOr0]

/-- Claim C4 (refuted as stated): a window containing exactly one record
yields `some 0` (the SQL MIN and MAX aggregates coincide on the single
row), not `null` — the claim says fewer than 2 records give `null`. -/
theorem usage_window_single_record_counterexample :
    (windowRecords [singleWindowRec] 0).length = 1 ∧
    usageOverWindow [singleWindowRec] 0 = some 0 ∧
    usageOverWindow [singleWindowRec] 0 ≠ none := by
  refine ⟨?_, ?_, ?_⟩ <;> decide

/-- Claim C4 (amended): the usage aggregator returns `null` exactly when
zero records lie in the window; whenever the SQL aggregates are present it
returns the non-null difference `maxAgg - minAgg`, and in particular a
window with exactly one record returns `some 0`, not `null`. -/
theorem usage_window_null_iff_no_records :
    ∀ (tbl : List TimeSeriesRecord) (cutoffTime : Int),
      (usageOverWindow tbl cutoffTime = none ↔ windowRecords tbl cutoffTime = []) ∧
      (∀ mn mx, sqlMin (windowSums tbl cutoffTime) = some mn →
          sqlMax (windowSums tbl cutoffTime) = some mx →
          usageOverWindow tbl cutoffTime = some (mx - mn)) ∧
      (∀ r, windowRecords tbl cutoffTime = [r] →
          usageOverWindow tbl cutoffTime = some 0) := by
  intro tbl cutoffTime
  refine ⟨⟨?_, ?_⟩, ?_, ?_⟩
  · intro h
    by_contra hne
    have hsum : windowSums tbl cutoffTime ≠ [] := by
      intro hh
      exact hne (List.map_eq_nil_iff.mp hh)
    cases hmin : sqlMin (windowSums tbl cutoffTime) with
    | none => exact hsum ((sqlMin_eq_none_iff _).mp hmin)
    | some mn =>
      cases hmax : sqlMax (windowSums tbl cutoffTime) with
      | none => exact hsum ((sqlMax_eq_none_iff _).mp hmax)
      | some mx =>
        unfold usageOverWindow at h
        rw [hmin, hmax] at h
        simp at h
  · intro h
    have hsum : windowSums tbl cutoffTime = [] := by
      unfold windowSums
      rw [h]
      rfl
    unfold usageOverWindow
    rw [hsum]
    rfl
  · intro mn mx hmn hmx
    unfold usageOverWindow
    rw [hmn, hmx]
  · intro r hr
    have hsum : windowSums tbl cutoffTime = [r.total_rx_bytes + r.total_tx_bytes] := by
      unfold windowSums
      rw [hr]
      rfl
    unfold usageOverWindow
    rw [hsum]
    simp [sqlMin, sqlMax]

/-- Witness for the amended C4 theorem at the one-record table. -/
theorem usage_window_null_iff_no_records_witness :
    usageOverWindow [singleWindowRec] 0 = some 0 :=
  (usage_window_null_iff_no_records [singleWindowRec] 0).2.2 singleWindowRec (by decide)

/-- Claim C5 (refuted in its discard clause): on a download counter reset
(aggregate download 1000 → 500, upload 200 → 300) the computed download
speed is 0, but the sample is NOT discarded: the poll cycle still appends
the `(timestamp, 0, 20)` row to `bandwidth_history` and pushes the 0
sample into the in-memory ring buffer. -/
theorem rollover_persisted_counterexample :
    (livePollSpeeds pollOne resetPoll).1 = 0 ∧
    (livePollSpeeds pollOne resetPoll).2 = 20 ∧
    saveBandwidthData [] 777 (livePollSpeeds pollOne resetPoll).1
      (livePollSpeeds pollOne resetPoll).2 = [(777, 0, 20)] ∧
    (pushSample ⟨[], []⟩ (livePollSpeeds pollOne resetPoll).1
      (livePollSpeeds pollOne resetPoll).2).download = [0] := by
  have hd : (livePollSpeeds pollOne resetPoll).1 = 0 := by
    norm_num [livePollSpeeds, calculateBandwidth, totalDownload, totalUpload,
      pollOne, resetPoll, parseIntOr0, POLL_INTERVAL]
  have hu : (livePollSpeeds pollOne resetPoll).2 = 20 := by
    norm_num [livePollSpeeds, calculateBandwidth, totalDownload, totalUpload,
      pollOne, resetPoll, parseIntOr0, POLL_INTERVAL]
  refine ⟨hd, hu, ?_, ?_⟩
  · rw [hd, hu]
    rfl
  · rw [hd, hu]
    rfl

/-- Claim C5 (amended): whenever the current aggregate counter for a
direction is strictly below the previous one, the computed speed for that
direction is 0 and never negative, and the sample is nevertheless
persisted as a 0-speed bandwidth sample — appended to `bandwidth_history`
and pushed as the newest ring-buffer entry — rather than discarded. -/
theorem rollover_zero_and_persisted :
    ∀ (currBytes prevBytes : Int) (u : ℚ) (h : BandwidthHistory)
      (rows : List (Int × ℚ × ℚ)) (ts : Int),
      currBytes < prevBytes →
      calculateBandwidth currBytes prevBytes (POLL_INTERVAL : ℚ) = 0 ∧
      saveBandwidthData rows ts (calculateBandwidth currBytes prevBytes (POLL_INTERVAL : ℚ)) u
        = rows ++ [(ts, 0, u)] ∧
      (pushSample h (calculateBandwidth currBytes prevBytes (POLL_INTERVAL : ℚ)) u).download.getLast?
        = some 0 := by
  intro c p u h rows ts hlt
  have hz : calculateBandwidth c p (POLL_INTERVAL : ℚ) = 0 := by
    unfold calculateBandwidth
    split
    · rfl
    · have hneg : ((c - p : Int) : ℚ) < 0 := by
        have hs : (c - p : Int) < 0 := sub_neg.mpr hlt
        exact_mod_cast hs
      have hstep : ((c - p : Int) : ℚ) / ((POLL_INTERVAL : Int) : ℚ) * 1000 < 0 := by
        apply mul_neg_of_neg_of_pos
        · apply div_neg_of_neg_of_pos hneg
          norm_num [POLL_INTERVAL]
        · norm_num
      exact max_eq_left hstep.le
  refine ⟨hz, by rw [hz]; rfl, ?_⟩
  rw [hz]
  simp only [pushSample]
  split
  · next hcond =>
    cases hdl : h.download with
    | nil =>
      rw [hdl] at hcond
      simp [maxSamples] at hcond
    | cons a as =>
      exact List.getLast?_concat _
  · exact List.getLast?_concat _

/-- Witness for the amended C5 theorem: download counter 1000 → 500. -/
theorem rollover_zero_and_persisted_witness :
    calculateBandwidth 500 1000 (POLL_INTERVAL : ℚ) = 0 :=
  (rollover_zero_and_persisted 500 1000 20 ⟨[], []⟩ [] 777 (by decide)).1

/-- Claim C6 (confirmed): for every pair of snapshots with a later current
timestamp and non-decreasing aggregate counters, the live poll speeds are
non-negative, and every speed recomputed from the timeseries store is
non-negative as well. -/
theorem computed_speeds_nonneg :
    ∀ (prev curr : RawSnapshot) (tsPrev tsCurr : Int),
      tsPrev < tsCurr →
      totalDownload prev ≤ totalDownload curr →
      totalUpload prev ≤ totalUpload curr →
      (0 ≤ (livePollSpeeds prev curr).1 ∧ 0 ≤ (livePollSpeeds prev curr).2) ∧
      (∀ (tbl : List TimeSeriesRecord) (limit : Nat) (s : ℚ),
          s ∈ (calculateSpeedsFromTimeseries tbl limit).1 ∨
            s ∈ (calculateSpeedsFromTimeseries tbl limit).2.1 →
          0 ≤ s) := by
  intro prev curr tsPrev tsCurr hts hd hu
  constructor
  · exact ⟨calculateBandwidth_nonneg _ _ _, calculateBandwidth_nonneg _ _ _⟩
  · intro tbl limit s hs
    simp only [calculateSpeedsFromTimeseries] at hs
    split at hs
    · rcases hs with h | h <;> simp at h
    · rcases hs with h | h
      · obtain ⟨x, hx, rfl⟩ := List.mem_map.mp h
        exact (speedsFromRows_nonneg _ x hx).1
      · obtain ⟨x, hx, rfl⟩ := List.mem_map.mp h
        exact (speedsFromRows_nonneg _ x hx).2

/-- Witness for C6 at the concrete snapshot pair of the C1 scenario. -/
theorem computed_speeds_nonneg_witness :
    0 ≤ (livePollSpeeds pollOne pollTwo).1 ∧ 0 ≤ (livePollSpeeds pollOne pollTwo).2 :=
  (computed_speeds_nonneg pollOne pollTwo 0 5000 (by decide) (by decide) (by decide)).1

/-- Claim C7 (refuted in its non-negativity clause): a counter field that
parses to a negative integer is passed through unchanged by
`parseInt(x) || 0` (only `NaN` and 0 coerce to 0), so the per-source and
aggregate counters can be negative. -/
theorem lenient_parsing_counterexample :
    cellularDownload negativeFieldRaw = -5 ∧
    totalDownload negativeFieldRaw = -5 ∧
    ¬ (0 ≤ totalDownload negativeFieldRaw) := by
  refine ⟨?_, ?_, ?_⟩ <;> decide

/-- Claim C7 (amended): normalization is total — an absent offload
sub-object contributes 0 to both directions and is inactive, and a missing
or unparsable counter field coerces to 0; all counters are always defined
integers, and they are non-negative whenever every present counter field
parses to a non-negative value. -/
theorem lenient_parsing_totality :
    ∀ d : RawSnapshot,
      (d.wifiOffload = none →
        wifiOffloadDownload d = 0 ∧ wifiOffloadUpload d = 0 ∧
          wifiOffloadActive d = false) ∧
      (d.ethOffload = none →
        ethernetOffloadDownload d = 0 ∧ ethernetOffloadUpload d = 0 ∧
          ethernetOffloadActive d = false) ∧
      (d.wwan.dataTransferredRx = none → cellularDownload d = 0) ∧
      (d.wwan.dataTransferredTx = none → cellularUpload d = 0) ∧
      (nonNegCounterFields d = true →
        0 ≤ totalDownload d ∧ 0 ≤ totalUpload d ∧ 0 ≤ cellularDownload d ∧
          0 ≤ cellularUpload d ∧ 0 ≤ wifiOffloadDownload d ∧
          0 ≤ wifiOffloadUpload d ∧ 0 ≤ ethernetOffloadDownload d ∧
          0 ≤ ethernetOffloadUpload d) := by
  intro d
  refine ⟨?_, ?_, ?_, ?_, ?_⟩
  · intro hw
    simp [wifiOffloadDownload, wifiOffloadUpload, wifiOffloadActive, hw]
  · intro he
    simp [ethernetOffloadDownload, ethernetOffloadUpload, ethernetOffloadActive, he]
  · intro hrx
    simp [cellularDownload, hrx, parseIntOr0]
  · intro htx
    simp [cellularUpload, htx, parseIntOr0]
  · intro hn
    cases hw : d.wifiOffload with
    | none =>
      cases he : d.ethOffload with
      | none =>
        simp only [nonNegCounterFields, hw, he, Bool.and_true, Bool.and_eq_true,
          decide_eq_true_eq] at hn
        simp only [totalDownload, totalUpload, cellularDownload, cellularUpload,
          wifiOffloadDownload, wifiOffloadUpload, ethernetOffloadDownload,
          ethernetOffloadUpload, hw, he]
        omega
      | some e =>
        simp only [nonNegCounterFields, hw, he, Bool.and_true, Bool.and_eq_true,
          decide_eq_true_eq] at hn
        simp only [totalDownload, totalUpload, cellularDownload, cellularUpload,
          wifiOffloadDownload, wifiOffloadUpload, ethernetOffloadDownload,
          ethernetOffloadUpload, hw, he]
        omega
    | some w =>
      cases hdt : w.dataTransferred with
      | none =>
        cases he : d.ethOffload with
        | none =>
          simp only [nonNegCounterFields, hw, hdt, he, Bool.and_true, Bool.and_eq_true,
            decide_eq_true_eq] at hn
          simp only [totalDownload, totalUpload, cellularDownload, cellularUpload,
            wifiOffloadDownload, wifiOffloadUpload, ethernetOffloadDownload,
            ethernetOffloadUpload, hw, hdt, he]
          omega
        | some e =>
          simp only [nonNegCounterFields, hw, hdt, he, Bool.and_true, Bool.and_eq_true,
            decide_eq_true_eq] at hn
          simp only [totalDownload, totalUpload, cellularDownload, cellularUpload,
            wifiOffloadDownload, wifiOffloadUpload, ethernetOffloadDownload,
            ethernetOffloadUpload, hw, hdt, he]
          omega
      | some dt =>
        cases he : d.ethOffload with
        | none =>
          simp only [nonNegCounterFields, hw, hdt, he, Bool.and_true, Bool.and_eq_true,
            decide_eq_true_eq] at hn
          simp only [totalDownload, totalUpload, cellularDownload, cellularUpload,
            wifiOffloadDownload, wifiOffloadUpload, ethernetOffloadDownload,
            ethernetOffloadUpload, hw, hdt, he]
          omega
        | some e =>
          simp only [nonNegCounterFields, hw, hdt, he, Bool.and_true, Bool.and_eq_true,
            decide_eq_true_eq] at hn
          simp only [totalDownload, totalUpload, cellularDownload, cellularUpload,
            wifiOffloadDownload, wifiOffloadUpload, ethernetOffloadDownload,
            ethernetOffloadUpload, hw, hdt, he]
          omega

/-- Witness for the amended C7 theorem on the spec's example snapshot. -/
theorem lenient_parsing_totality_witness :
    0 ≤ totalDownload specConventionRaw ∧ 0 ≤ totalUpload specConventionRaw :=
  ⟨((lenient_parsing_totality specConventionRaw).2.2.2.2 (by decide)).1,
   ((lenient_parsing_totality specConventionRaw).2.2.2.2 (by decide)).2.1⟩

/-- Claim C8 (confirmed): every synthetic record inserted by gap
interpolation has `total_rx_bytes = 0`, `total_tx_bytes = 0`,
`session_duration = 0` and NULL signal fields; consequently, for every
usage window whose rows all have non-negative session sums and which
contains a record with both session counters 0, the SQL MIN aggregate is 0
and the windowed usage result equals the window's MAX aggregate. -/
theorem synthetic_records_and_window_usage :
    (∀ (lastEntry : Option LastEntry) (currentTimestamp lifetimeBytes : Int)
        (r : TimeSeriesRecord),
        r ∈ handleDataGap lastEntry currentTimestamp lifetimeBytes →
        r.total_rx_bytes = 0 ∧ r.total_tx_bytes = 0 ∧ r.session_duration = 0 ∧
          r.signal_rsrp = none ∧ r.signal_rsrq = none ∧ r.signal_sinr = none) ∧
    (∀ (tbl : List TimeSeriesRecord) (cutoffTime : Int) (s : TimeSeriesRecord),
        s ∈ windowRecords tbl cutoffTime →
        s.total_rx_bytes = 0 → s.total_tx_bytes = 0 →
        (∀ r ∈ windowRecords tbl cutoffTime, 0 ≤ r.total_rx_bytes + r.total_tx_bytes) →
        sqlMin (windowSums tbl cutoffTime) = some 0 ∧
          usageOverWindow tbl cutoffTime = sqlMax (windowSums tbl cutoffTime)) := by
  constructor
  · intro lastEntry currentTimestamp lifetimeBytes r hr
    cases lastEntry with
    | none => simp [handleDataGap] at hr
    | some lastE =>
      simp only [handleDataGap] at hr
      split at hr
      · split at hr
        · obtain ⟨j, hj, rfl⟩ := List.mem_map.mp hr
          exact ⟨rfl, rfl, rfl, rfl, rfl, rfl⟩
        · simp at hr
      · simp at hr
  · intro tbl cutoffTime s hs hrx htx hall
    have h0 : (0 : Int) ∈ windowSums tbl cutoffTime := by
      have hmem : s.total_rx_bytes + s.total_tx_bytes
          ∈ (windowRecords tbl cutoffTime).map
            (fun r : TimeSeriesRecord => r.total_rx_bytes + r.total_tx_bytes) :=
        List.mem_map_of_mem _ hs
      rw [hrx, htx] at hmem
      simpa [windowSums] using hmem
    have hallz : ∀ x ∈ windowSums tbl cutoffTime, 0 ≤ x := by
      intro x hx
      obtain ⟨r, hr, rfl⟩ := List.mem_map.mp hx
      exact hall r hr
    have hmin : sqlMin (windowSums tbl cutoffTime) = some 0 :=
      sqlMin_eq_zero _ h0 hallz
    refine ⟨hmin, ?_⟩
    have hne : windowSums tbl cutoffTime ≠ [] := by
      intro hh
      rw [hh] at h0
      simp at h0
    cases hmax : sqlMax (windowSums tbl cutoffTime) with
    | none => exact absurd ((sqlMax_eq_none_iff _).mp hmax) hne
    | some mx =>
      unfold usageOverWindow
      rw [hmin, hmax]
      simp

/-- Witness for C8 on a two-row table with one zero-counter record. -/
theorem synthetic_records_and_window_usage_witness :
    sqlMin (windowSums mixedWindowTbl 0) = some 0 ∧
    usageOverWindow mixedWindowTbl 0 = sqlMax (windowSums mixedWindowTbl 0) :=
  synthetic_records_and_window_usage.2 mixedWindowTbl 0 zeroCounterRec
    (by decide) (by decide) (by decide) (by decide)

/-- Claim C9 (confirmed): one poll-cycle update of the in-memory bandwidth
history preserves the invariant — the download and upload lists keep equal
lengths and at most `maxSamples = 66` entries; below the bound the new
sample is appended, and at the bound the oldest sample of each list is
evicted so the buffer keeps exactly the most recent samples. -/
theorem ring_buffer_invariant :
    ∀ (h : BandwidthHistory) (d u : ℚ),
      h.download.length = h.upload.length →
      h.download.length ≤ maxSamples →
      (pushSample h d u).download.length = (pushSample h d u).upload.length ∧
      (pushSample h d u).download.length ≤ maxSamples ∧
      (h.download.length < maxSamples →
        (pushSample h d u).download = h.download ++ [d] ∧
        (pushSample h d u).upload = h.upload ++ [u]) ∧
      (h.download.length = maxSamples →
        (pushSample h d u).download = h.download.tail ++ [d] ∧
        (pushSample h d u).upload = h.upload.tail ++ [u]) := by
  intro h d u heq hle
  simp only [pushSample]
  by_cases hc : (h.download ++ [d]).length > maxSamples
  · rw [if_pos hc]
    have h66 : h.download.length = maxSamples := by
      simp only [List.length_append, List.length_singleton] at hc
      omega
    refine ⟨?_, ?_, ?_, ?_⟩
    · simp [heq]
    · simp only [List.length_tail, List.length_append, List.length_singleton]
      omega
    · intro hlt
      exact absurd h66 (Nat.ne_of_lt hlt)
    · intro _
      constructor
      · cases hdl : h.download with
        | nil =>
          rw [hdl] at h66
          simp [maxSamples] at h66
        | cons a as => rfl
      · cases hul : h.upload with
        | nil =>
          rw [hul] at heq
          rw [heq] at h66
          simp [maxSamples] at h66
        | cons a as => rfl
  · rw [if_neg hc]
    have hlt : h.download.length < maxSamples := by
      simp only [List.length_append, List.length_singleton] at hc
      omega
    refine ⟨by simp [heq], ?_, fun _ => ⟨rfl, rfl⟩, fun he => absurd he (Nat.ne_of_lt hlt)⟩
    simp only [List.length_append, List.length_singleton]
    omega

/-- Witness for C9 starting from the empty ring buffer. -/
theorem ring_buffer_invariant_witness :
    (pushSample ⟨[], []⟩ 1 2).download.length = (pushSample ⟨[], []⟩ 1 2).upload.length ∧
    (pushSample ⟨[], []⟩ 1 2).download.length ≤ maxSamples :=
  ⟨(ring_buffer_invariant ⟨[], []⟩ 1 2 rfl (by decide)).1,
   (ring_buffer_invariant ⟨[], []⟩ 1 2 rfl (by decide)).2.1⟩
